import Mathlib

/-!
Shallow embedding of `src/server.js` (Pokemon Database API): the Pokemon data
model, the query translator `buildWhereClause`, the pagination helper
`paginate`, and the route handlers for list, get-by-id, create/update stat
recomputation, delete, and search.  The database (Sequelize/Postgres) is an
opaque dependency in the source; its observable behaviour on the query options
built by the handlers is modelled as list filtering plus offset/limit.
-/

set_option maxRecDepth 4000

/-- A value stored in the JSONB `baseStats` object of a Pokemon body.  The JS
code only distinguishes numbers from everything else (`typeof stat === 'number'`),
so non-numeric values are collapsed into one constructor. -/
inductive StatVal where
  | num (n : Int)
  | other
deriving DecidableEq

/-- A JS object is modelled as an association list with distinct keys; the
stat block of a request body is such an object. -/
abbrev StatBlock := List (String × StatVal)

/-- Embeds the reduce in lines 342-343 (and identically 387-388) of
`server.js`: `Object.values(pokemonData.baseStats).reduce((sum, stat) =>
sum + (typeof stat === 'number' ? stat : 0), 0)`.  Every numeric value of the
object is summed, including a client-supplied `total` if present. -/
def computeStatTotal (bs : StatBlock) : Int :=
  (bs.map (fun kv => match kv.2 with
    | StatVal.num n => n
    | StatVal.other => 0)).sum

/-- JS property assignment `obj.total = v`: replace the value at key `"total"`
if the key exists, otherwise append it. -/
def setTotal (bs : StatBlock) (v : Int) : StatBlock :=
  if (bs.lookup "total").isSome then
    bs.map (fun kv => if kv.1 = "total" then ("total", StatVal.num v) else kv)
  else bs ++ [("total", StatVal.num v)]

/-- Embeds lines 341-344 of `server.js` (POST handler) and the identical lines
386-389 (PUT handler), for a body whose `baseStats` is present and an object:
the right-hand side reduce runs on the object as supplied by the client, and
its result is then written to the `total` property. -/
def recomputeStatTotal (bs : StatBlock) : StatBlock :=
  setTotal bs (computeStatTotal bs)

/-- Modelled from the spec: the sum of the six named base stats (hp, attack,
defense, specialAttack, specialDefense, speed) — the value the spec's
invariant says the persisted `total` must equal.  Used only to compare the
source computation against the spec's words. -/
def specSixStatSum (bs : StatBlock) : Int :=
  (["hp", "attack", "defense", "specialAttack", "specialDefense", "speed"].map
    (fun k => match bs.lookup k with
      | some (StatVal.num n) => n
      | _ => 0)).sum

/-- The Pokemon entity (Sequelize model, `server.js` lines 34-108), restricted
to the fields some claim reads: `id`, `name`, `species`, `types`,
`generation`, `baseStats` and `description`.  Fields no claim touches
(height, weight, abilities, evolutionChain, habitat, captureRate,
baseExperience, genderRatio, eggGroups, sprite) are omitted. -/
structure Pokemon where
  id : Int
  name : String
  species : String
  types : List String
  generation : Int
  baseStats : StatBlock
  description : String
deriving DecidableEq

/-- The persisted `baseStats.total` of an entity, read the way the
`where['baseStats.total']` bound of `buildWhereClause` reads it. -/
def statTotal (p : Pokemon) : Option Int :=
  match p.baseStats.lookup "total" with
  | some (StatVal.num n) => some n
  | _ => none

/-- The integer value of a list of leading decimal digits, `none` when there
is no leading digit (the NaN case of `parseInt`). -/
def leadingDigits (cs : List Char) : Option Nat :=
  let ds := cs.takeWhile Char.isDigit
  if ds.isEmpty then none
  else some (ds.foldl (fun a c => a * 10 + (c.toNat - 48)) 0)

/-- JS `parseInt` (radix 10, as used throughout `server.js`): skip leading
whitespace, read an optional sign and then the leading digits; `none` models
`NaN`. -/
def parseIntJS (s : String) : Option Int :=
  let cs := s.data.dropWhile Char.isWhitespace
  match cs with
  | '-' :: rest => (leadingDigits rest).map (fun n => -(n : Int))
  | '+' :: rest => (leadingDigits rest).map (fun n => (n : Int))
  | _ => (leadingDigits cs).map (fun n => (n : Int))

/-- Substring test on character lists: does `needle` occur contiguously in
`hay`? -/
def strHas (needle hay : List Char) : Bool :=
  needle.isPrefixOf hay ||
    match hay with
    | [] => false
    | _ :: t => strHas needle t

/-- Case-insensitive containment, modelling Postgres `ILIKE '%needle%'` for a
needle without wildcard characters (no claim uses a wildcard in the needle). -/
def containsCI (needle hay : String) : Bool :=
  strHas (needle.data.map Char.toLower) (hay.data.map Char.toLower)

/-- The where object built by `buildWhereClause` (`server.js` lines 175-202),
extended with the `Op.or` disjunction the search handler may add (lines
468-477).  `generationEq`, `totalGte` and `totalLte` carry the result of
`parseInt`, whose `none` value models a `NaN` comparison. -/
structure WhereClause where
  nameLike : Option String := none
  typeContains : Option String := none
  generationEq : Option (Option Int) := none
  totalGte : Option (Option Int) := none
  totalLte : Option (Option Int) := none
  textOr : Option String := none
deriving DecidableEq

/-- JS truthiness of an optional string parameter: absent and `""` are falsy
(`if (filters.name)` etc. in the source). -/
def truthy (o : Option String) : Option String :=
  match o with
  | none => none
  | some v => if v = "" then none else some v

/-- Reading a query parameter from the request's filter bag, with the
truthiness test every branch of `buildWhereClause` performs. -/
def getFilter (filters : List (String × String)) (k : String) : Option String :=
  truthy (filters.lookup k)

/-- Embeds `buildWhereClause` (`server.js` lines 175-202): the five recognized
filters, combined into one where object; every other key of the filter bag is
never read. -/
def buildWhereClause (filters : List (String × String)) : WhereClause :=
  { nameLike := getFilter filters "name"
    typeContains := getFilter filters "type"
    generationEq := (getFilter filters "generation").map parseIntJS
    totalGte := (getFilter filters "minStats").map parseIntJS
    totalLte := (getFilter filters "maxStats").map parseIntJS
    textOr := none }

/-- Satisfaction of the `name` condition (`Op.iLike %name%`). -/
def condName (w : WhereClause) (p : Pokemon) : Bool :=
  match w.nameLike with
  | none => true
  | some v => containsCI v p.name

/-- Satisfaction of the `types` condition (`Op.contains [type]`). -/
def condType (w : WhereClause) (p : Pokemon) : Bool :=
  match w.typeContains with
  | none => true
  | some v => p.types.contains v

/-- Satisfaction of the `generation` equality condition; a `NaN` comparand
(failed `parseInt`) compares equal to nothing. -/
def condGeneration (w : WhereClause) (p : Pokemon) : Bool :=
  match w.generationEq with
  | none => true
  | some none => false
  | some (some n) => p.generation == n

/-- Satisfaction of the `Op.gte` bound on `baseStats.total`; a `NaN` bound or
a missing numeric total satisfies nothing. -/
def condMin (w : WhereClause) (p : Pokemon) : Bool :=
  match w.totalGte with
  | none => true
  | some none => false
  | some (some n) =>
    match statTotal p with
    | some t => decide (n ≤ t)
    | none => false

/-- Satisfaction of the `Op.lte` bound on `baseStats.total`. -/
def condMax (w : WhereClause) (p : Pokemon) : Bool :=
  match w.totalLte with
  | none => true
  | some none => false
  | some (some n) =>
    match statTotal p with
    | some t => decide (t ≤ n)
    | none => false

/-- Satisfaction of the search handler's `Op.or` disjunction over name,
species and description (`server.js` lines 471-475). -/
def condText (w : WhereClause) (p : Pokemon) : Bool :=
  match w.textOr with
  | none => true
  | some v => containsCI v p.name || containsCI v p.species || containsCI v p.description

/-- An entity satisfies a where object iff it satisfies every condition in it:
top-level keys of a Sequelize where object combine with AND. -/
def matchesWhere (w : WhereClause) (p : Pokemon) : Bool :=
  condName w p && condType w p && condGeneration w p
    && condMin w p && condMax w p && condText w p

/-- The ORM query-options object the handlers build: a where object, an order
specification, and the offset/limit added by `paginate`.  `where` is a Lean
keyword, hence the field name `whereC`. -/
structure Query where
  whereC : WhereClause := {}
  order : List (String × String) := []
  offset : Option Int := none
  limit : Option Int := none
deriving DecidableEq

/-- Embeds `paginate` (`server.js` lines 166-173): spread the input query and
add `offset = (page - 1) * limit` and `limit = Math.min(limit, 100)`. -/
def paginate (query : Query) (page : Int := 1) (limit : Int := 20) : Query :=
  let offset := (page - 1) * limit
  { query with offset := some offset, limit := some (min limit 100) }

/-- Model of the store executing query options (the rows of `findAll` /
`findAndCountAll`): filter by the where object, then apply offset and limit.
Row ordering (the `order` option) happens inside the database and is not
modelled; no claim depends on result order.  A negative offset or limit is
truncated to 0 by `Int.toNat`; the claims that use this function restrict to
page ≥ 1. -/
def applyQuery (store : List Pokemon) (q : Query) : List Pokemon :=
  let m := store.filter (matchesWhere q.whereC)
  let m2 := match q.offset with
    | none => m
    | some o => m.drop o.toNat
  match q.limit with
  | none => m2
  | some l => m2.take l.toNat

/-- The parameters of a GET `/api/v1/pokemon` request after the handler's
destructuring and `parseInt` (`server.js` line 265): `page` and `limit`
default to 1 and 20 when absent; `filters` is the rest of the query string. -/
structure ListRequest where
  page : Int := 1
  limit : Int := 20
  sort : String := "id"
  order : String := "ASC"
  filters : List (String × String) := []
deriving DecidableEq

/-- The pagination metadata object of the list response (`server.js` lines
280-287). -/
structure Pagination where
  currentPage : Int
  totalPages : Int
  totalItems : Nat
  itemsPerPage : Int
  hasNextPage : Bool
  hasPreviousPage : Bool
deriving DecidableEq

/-- JS `Math.ceil(count / limit)` for a natural count and integer limit.  For
`limit = 0` the JS expression yields `Infinity` (or `NaN` when `count = 0`);
no claim exercises that case and it is modelled as 0. -/
def jsCeilDiv (count : Nat) (limit : Int) : Int :=
  if 0 < limit then ((count + limit.toNat - 1) / limit.toNat : Nat)
  else if limit < 0 then -((count / limit.natAbs : Nat) : Int)
  else 0

/-- The pagination metadata computed by the list handler (`server.js` lines
275 and 280-287): note `totalPages = Math.ceil(count / parseInt(limit))` uses
the requested limit, not the capped one. -/
def listMeta (store : List Pokemon) (r : ListRequest) : Pagination :=
  let count := (store.filter (matchesWhere (buildWhereClause r.filters))).length
  let totalPages := jsCeilDiv count r.limit
  { currentPage := r.page
    totalPages := totalPages
    totalItems := count
    itemsPerPage := r.limit
    hasNextPage := decide (r.page < totalPages)
    hasPreviousPage := decide (1 < r.page) }

/-- The rows returned by the list handler: `findAndCountAll` on the query
options built from `buildWhereClause` and `paginate` (`server.js` lines
267-273). -/
def listRows (store : List Pokemon) (r : ListRequest) : List Pokemon :=
  applyQuery store
    (paginate { whereC := buildWhereClause r.filters, order := [(r.sort, r.order.toUpper)] }
      r.page r.limit)

/-- The observable outcome of a GET `/api/v1/pokemon` request. -/
structure ListResult where
  status : Nat
  rows : List Pokemon
  pagination : Option Pagination
deriving DecidableEq

/-- The whole list handler (`server.js` lines 263-303): the body is one
try/catch, so the response is either the 200 success envelope or — when the
store call throws — the 500 error envelope.  `storeFails` models whether the
opaque store call throws; no other status is ever produced by this route. -/
def listEndpoint (store : List Pokemon) (r : ListRequest) (storeFails : Bool) : ListResult :=
  if storeFails then { status := 500, rows := [], pagination := none }
  else { status := 200, rows := listRows store r, pagination := some (listMeta store r) }

/-- `Pokemon.findByPk` on the modelled store: the row with the given primary
key. -/
def findByPk (store : List Pokemon) (id : Int) : Option Pokemon :=
  store.find? (fun p => p.id == id)

/-- The JSON envelope of the single-entity routes.  The route parameter `:id`
is a string in the source; it is modelled as the integer key it denotes. -/
structure Envelope where
  status : Nat
  success : Bool
  error : Option String := none
  message : Option String := none
  data : Option Pokemon := none
deriving DecidableEq

/-- Embeds the GET `/api/v1/pokemon/:id` handler (`server.js` lines 306-333):
404 with the structured error body when the key is absent, otherwise 200 with
the entity. -/
def getById (store : List Pokemon) (id : Int) : Envelope :=
  match findByPk store id with
  | none =>
    { status := 404, success := false, error := some "Pokémon not found"
      message := some ("No Pokémon found with ID " ++ toString id), data := none }
  | some p => { status := 200, success := true, data := some p }

/-- Embeds the DELETE `/api/v1/pokemon/:id` handler (`server.js` lines
409-436): 404 when the key is absent; otherwise the row is destroyed (removed
from the store — the primary key makes it the single matching row) and the
deleted entity is returned.  The result pairs the response with the store
after the call. -/
def deleteById (store : List Pokemon) (id : Int) : Envelope × List Pokemon :=
  match findByPk store id with
  | none =>
    ({ status := 404, success := false, error := some "Pokémon not found"
       message := some ("No Pokémon found with ID " ++ toString id), data := none }, store)
  | some p =>
    ({ status := 200, success := true
       message := some "Pokémon deleted successfully", data := some p },
     store.filter (fun q => q.id != id))

/-- The where object of the search handler (`server.js` lines 462-477):
`buildWhereClause` on everything but `q`, plus — when `q` is truthy — the
`Op.or` disjunction spread into the same object (top-level keys AND). -/
def searchWhere (q : Option String) (filters : List (String × String)) : WhereClause :=
  match truthy q with
  | some qv => { buildWhereClause filters with textOr := some qv }
  | none => buildWhereClause filters

/-- The rows of GET `/api/v1/search` (`server.js` line 479): `findAll` with
only the where option — no order, no offset, no limit. -/
def searchHandler (store : List Pokemon) (q : Option String)
    (filters : List (String × String)) : List Pokemon :=
  store.filter (matchesWhere (searchWhere q filters))

/-- A concrete entity used by the witnesses and counterexamples. -/
def pikachu : Pokemon :=
  { id := 25
    name := "Pikachu"
    species := "Mouse Pokémon"
    types := ["Electric"]
    generation := 1
    baseStats := [("hp", StatVal.num 35), ("attack", StatVal.num 55),
                  ("defense", StatVal.num 40), ("specialAttack", StatVal.num 50),
                  ("specialDefense", StatVal.num 50), ("speed", StatVal.num 90),
                  ("total", StatVal.num 320)]
    description := "An Electric mouse that stores electricity in its cheeks" }

/-- A minimal entity, for building larger stores. -/
def mkPoke (i : Nat) : Pokemon :=
  { id := (i : Int), name := "p", species := "s", types := [], generation := 1
    baseStats := [], description := "" }

/-- A store of 150 entities, all matching an empty filter set. -/
def store150 : List Pokemon := (List.range 150).map mkPoke

/-- A query-options object with no filters, used as concrete input. -/
def emptyQuery : Query := {}

/-- GET `/api/v1/pokemon?limit=500` (page defaulted to 1). -/
def listReq500 : ListRequest := { page := 1, limit := 500 }

/-- GET `/api/v1/pokemon?page=2&limit=20`. -/
def listReq20 : ListRequest := { page := 2, limit := 20 }

/-- GET `/api/v1/pokemon?generation=abc`. -/
def genReqAbc : ListRequest := { filters := [("generation", "abc")] }

/-- The six named stats all 1, plus a client-supplied `total` of 100: the
body of the failing create request. -/
def statsWithClientTotal : StatBlock :=
  [("hp", StatVal.num 1), ("attack", StatVal.num 1), ("defense", StatVal.num 1),
   ("specialAttack", StatVal.num 1), ("specialDefense", StatVal.num 1),
   ("speed", StatVal.num 1), ("total", StatVal.num 100)]

/-- Modelled from the spec: the capped page size `min(limit, 100)`. -/
def specCappedLimit (limit : Int) : Int := min limit 100

/-- Modelled from the spec: `totalPages = ceil(totalItems / cappedLimit)`,
the formula the claim asserts for the list response metadata. -/
def specTotalPages (totalItems : Nat) (limit : Int) : Int :=
  jsCeilDiv totalItems (specCappedLimit limit)

/-- The five filter keys `buildWhereClause` recognizes. -/
def recognizedFilterKeys : List String :=
  ["name", "type", "generation", "minStats", "maxStats"]

/-! ### Helper lemmas -/

/-- `paginate` leaves the where object of the query untouched. -/
theorem paginate_whereC (q : Query) (page limit : Int) :
    (paginate q page limit).whereC = q.whereC := rfl

/-- Looking a key up past an association-list entry with a different key. -/
theorem getFilter_cons_ne (k v key : String) (filters : List (String × String))
    (h : key ≠ k) : getFilter ((k, v) :: filters) key = getFilter filters key := by
  have hbe : (key == k) = false := beq_eq_false_iff_ne.mpr h
  unfold getFilter
  simp only [List.lookup]
  rw [hbe]

/-- `buildWhereClause` never reads a filter entry whose key is not one of the
five recognized keys: prepending such an entry changes nothing. -/
theorem buildWhereClause_cons (k v : String) (filters : List (String × String))
    (h : k ∉ recognizedFilterKeys) :
    buildWhereClause ((k, v) :: filters) = buildWhereClause filters := by
  simp only [recognizedFilterKeys, List.mem_cons, List.mem_singleton, not_or] at h
  obtain ⟨h1, h2, h3, h4, h5, -⟩ := h
  unfold buildWhereClause
  rw [getFilter_cons_ne k v "name" filters (fun e => h1 e.symm),
      getFilter_cons_ne k v "type" filters (fun e => h2 e.symm),
      getFilter_cons_ne k v "generation" filters (fun e => h3 e.symm),
      getFilter_cons_ne k v "minStats" filters (fun e => h4 e.symm),
      getFilter_cons_ne k v "maxStats" filters (fun e => h5 e.symm)]

/-- A where object carrying a failed-parse (NaN) generation comparison
matches no entity. -/
theorem matchesWhere_gen_nan (w : WhereClause) (p : Pokemon)
    (h : w.generationEq = some none) : matchesWhere w p = false := by
  unfold matchesWhere condGeneration
  rw [h]
  simp

/-- The store returns nothing when the where object matches nothing. -/
theorem applyQuery_nil (store : List Pokemon) (q : Query)
    (h : ∀ p, matchesWhere q.whereC p = false) : applyQuery store q = [] := by
  have hf : store.filter (matchesWhere q.whereC) = [] :=
    List.filter_eq_nil_iff.mpr (fun a _ => by simp [h a])
  unfold applyQuery
  rw [hf]
  cases q.offset <;> cases q.limit <;> simp

/-- The rows of any paginated query are capped at 100 items. -/
theorem applyQuery_paginate_length_le (store : List Pokemon) (q : Query)
    (page limit : Int) :
    (applyQuery store (paginate q page limit)).length ≤ 100 := by
  have h2 : (min limit 100).toNat ≤ (100 : Int).toNat :=
    Int.toNat_le_toNat (min_le_right _ _)
  unfold applyQuery paginate
  simp only []
  refine le_trans (List.length_take_le _ _) ?_
  exact h2

/-- After filtering out a primary key, no row with that key can be found. -/
theorem findByPk_filter_ne (store : List Pokemon) (id : Int) :
    findByPk (store.filter (fun q => q.id != id)) id = none := by
  unfold findByPk
  rw [List.find?_eq_none]
  intro x hx
  have h2 := (List.mem_filter.mp hx).2
  simp only [bne_iff_ne, ne_eq] at h2
  simp [h2]

/-- The store after a DELETE of `id` has no row with key `id`, whether or not
one existed before the call. -/
theorem findByPk_after_delete (store : List Pokemon) (id : Int) :
    findByPk (deleteById store id).2 id = none := by
  unfold deleteById
  cases hf : findByPk store id with
  | none => simpa using hf
  | some p =>
    simp only []
    exact findByPk_filter_ne store id

/-- Adding the search disjunction to a where object whose disjunction slot is
empty conjoins it with the previous conditions. -/
theorem matchesWhere_set_textOr (w : WhereClause) (q : String) (p : Pokemon)
    (hw : w.textOr = none) :
    matchesWhere { w with textOr := some q } p
      = (matchesWhere w p
          && (containsCI q p.name || containsCI q p.species || containsCI q p.description)) := by
  unfold matchesWhere
  have h1 : condName { w with textOr := some q } p = condName w p := rfl
  have h2 : condType { w with textOr := some q } p = condType w p := rfl
  have h3 : condGeneration { w with textOr := some q } p = condGeneration w p := rfl
  have h4 : condMin { w with textOr := some q } p = condMin w p := rfl
  have h5 : condMax { w with textOr := some q } p = condMax w p := rfl
  have h6 : condText { w with textOr := some q } p
      = (containsCI q p.name || containsCI q p.species || containsCI q p.description) := by
    unfold condText
    rfl
  have h7 : condText w p = true := by
    unfold condText
    rw [hw]
  rw [h1, h2, h3, h4, h5, h6, h7]
  simp [Bool.and_assoc, Bool.and_true]

/-! ### Claim theorems -/

/-- Claim C1.  The create/update stat computation does NOT produce the sum of
the six named base stats when the client supplies a `total`: on a stat block
with the six named stats all 1 and a client-supplied `total = 100`, the code
(lines 341-344 / 386-389 of `server.js`) sums every numeric value of the
object — including the client's `total` — and persists `total = 106`, while
the sum of the six named stats is 6.  The client-supplied `total` is trusted
as a summand, contradicting the invariant the code's own comment
(`Calculate total stats`) and the spec state. -/
theorem stat_total_code_bug_eval :
    (recomputeStatTotal statsWithClientTotal).lookup "total" = some (StatVal.num 106)
    ∧ specSixStatSum statsWithClientTotal = 6
    ∧ (106 : Int) ≠ 6 := by decide

/-- Claim C2, counterexample.  For `limit = 500` over 150 matching items the
handler reports `totalPages = Math.ceil(150 / 500) = 1` computed from the
requested limit, while the claim's formula `ceil(totalItems / min(limit,100))`
gives 2; consequently `hasNextPage` is `false` although the current page (1)
is below the claim's total-page count. -/
theorem totalPages_uncapped_counterexample :
    (listMeta store150 listReq500).totalItems = 150
    ∧ (listMeta store150 listReq500).totalPages = 1
    ∧ specTotalPages 150 listReq500.limit = 2
    ∧ (1 : Int) ≠ 2
    ∧ (listMeta store150 listReq500).hasNextPage = false
    ∧ listReq500.page < specTotalPages 150 listReq500.limit := by decide

/-- Claim C2, amended.  For every list request with `limit ≥ 1` the reported
`totalPages` is `ceil(totalItems / limit)` computed from the requested,
uncapped limit; `hasNextPage` holds iff the current page is below that
total-page count, and `hasPreviousPage` iff the current page exceeds 1. -/
theorem totalPages_uses_requested_limit (store : List Pokemon) (r : ListRequest)
    (h : 1 ≤ r.limit) :
    (listMeta store r).totalPages
      = (((store.filter (matchesWhere (buildWhereClause r.filters))).length
          + r.limit.toNat - 1) / r.limit.toNat : Nat)
    ∧ ((listMeta store r).hasNextPage = true ↔ r.page < (listMeta store r).totalPages)
    ∧ ((listMeta store r).hasPreviousPage = true ↔ 1 < r.page) := by
  have hp : (0 : Int) < r.limit := by omega
  unfold listMeta jsCeilDiv
  simp [hp]

/-- Witness for `totalPages_uses_requested_limit` at page 2, limit 20 over a
store of 150 matching items. -/
theorem totalPages_uses_requested_limit_witness :
    (1 : Int) ≤ listReq20.limit
    ∧ ((listMeta store150 listReq20).totalPages
        = (((store150.filter (matchesWhere (buildWhereClause listReq20.filters))).length
            + listReq20.limit.toNat - 1) / listReq20.limit.toNat : Nat)
      ∧ ((listMeta store150 listReq20).hasNextPage = true
          ↔ listReq20.page < (listMeta store150 listReq20).totalPages)
      ∧ ((listMeta store150 listReq20).hasPreviousPage = true ↔ 1 < listReq20.page)) :=
  ⟨by decide, totalPages_uses_requested_limit store150 listReq20 (by decide)⟩

/-- Claim C3.  For every page ≥ 1 and every limit, `paginate` yields
`offset = (page - 1) * limit` and effective limit `min(limit, 100)`, and any
list request — in particular one with `limit = 500` — returns at most 100
rows. -/
theorem paginate_offset_cap (q : Query) (page limit : Int) (store : List Pokemon)
    (r : ListRequest) (_h : 1 ≤ page) :
    (paginate q page limit).offset = some ((page - 1) * limit)
    ∧ (paginate q page limit).limit = some (min limit 100)
    ∧ (applyQuery store (paginate q page limit)).length ≤ 100
    ∧ (listRows store r).length ≤ 100 := by
  refine ⟨rfl, rfl, applyQuery_paginate_length_le store q page limit, ?_⟩
  unfold listRows
  exact applyQuery_paginate_length_le store _ r.page r.limit

/-- Witness for `paginate_offset_cap` at page 1 and limit 500 over a store of
150 items: the returned rows number at most 100. -/
theorem paginate_offset_cap_witness :
    (1 : Int) ≤ 1
    ∧ ((paginate emptyQuery 1 500).offset = some (((1 : Int) - 1) * 500)
      ∧ (paginate emptyQuery 1 500).limit = some (min 500 100)
      ∧ (applyQuery store150 (paginate emptyQuery 1 500)).length ≤ 100
      ∧ (listRows store150 listReq500).length ≤ 100) :=
  ⟨by decide, paginate_offset_cap emptyQuery 1 500 store150 listReq500 (by decide)⟩

/-- Claim C5, counterexample.  `page = 0` with `limit = 20` is neither
rejected nor clamped: `paginate` computes and uses the negative offset
`(0 - 1) * 20 = -20`. -/
theorem paginate_page_zero_negative_offset :
    (paginate emptyQuery 0 20).offset = some (-20) ∧ (-20 : Int) < 0 := by decide

/-- Claim C5, amended.  The list pipeline applies no rejection and no
clamping: `paginate` always uses the parsed `page` and `limit` as given, so
`page ≤ 0` with a positive limit produces a negative offset, and a
non-positive `limit` passes through `min(limit, 100)` unchanged as the
effective limit. -/
theorem paginate_no_clamping (q : Query) (page limit : Int) :
    (paginate q page limit).offset = some ((page - 1) * limit)
    ∧ (page ≤ 0 → 1 ≤ limit → (page - 1) * limit < 0)
    ∧ (limit ≤ 0 → (paginate q page limit).limit = some limit) := by
  refine ⟨rfl, ?_, ?_⟩
  · intro h1 h2
    exact mul_neg_of_neg_of_pos (by omega) (by omega)
  · intro h
    unfold paginate
    simp only []
    rw [min_eq_left (by omega : limit ≤ 100)]

/-- Witness for `paginate_no_clamping` at page 0, limit 20. -/
theorem paginate_no_clamping_witness :
    (paginate emptyQuery 0 20).offset = some (((0 : Int) - 1) * 20)
    ∧ ((0 : Int) ≤ 0 → (1 : Int) ≤ 20 → ((0 : Int) - 1) * 20 < 0)
    ∧ ((20 : Int) ≤ 0 → (paginate emptyQuery 0 20).limit = some 20) :=
  paginate_no_clamping emptyQuery 0 20

/-- Claim C10.  `paginate` returns the input query with only `offset` and
`limit` set; the where object and the order specification — the only other
fields of a query-options object — are returned unchanged. -/
theorem paginate_preserves_where_order (q : Query) (page limit : Int) :
    (paginate q page limit).whereC = q.whereC
    ∧ (paginate q page limit).order = q.order
    ∧ (paginate q page limit).offset = some ((page - 1) * limit)
    ∧ (paginate q page limit).limit = some (min limit 100) :=
  ⟨rfl, rfl, rfl, rfl⟩

/-- Claim C4, counterexample.  For `GET /api/v1/pokemon?generation=abc` the
response status is 200 (empty result) when the store tolerates the predicate
and 500 when it errors — the list handler has no 400 path at all, so the
claimed 400 Bad Request never occurs. -/
theorem generation_non_numeric_no_400_counterexample :
    parseIntJS "abc" = none
    ∧ (listEndpoint [pikachu] genReqAbc false).status = 200
    ∧ (listEndpoint [pikachu] genReqAbc true).status = 500
    ∧ (listEndpoint [pikachu] genReqAbc false).status ≠ 400
    ∧ (listEndpoint [pikachu] genReqAbc true).status ≠ 400 := by decide

/-- Claim C4, amended.  A non-numeric `generation` is not validated:
`buildWhereClause` places the failed parse (NaN) into the where object as an
exact-match condition that matches no entity, and the list handler — whose
only outcomes are the 200 success envelope and the 500 catch envelope —
never responds 400; when the store tolerates the predicate the result set is
silently empty. -/
theorem generation_non_numeric_behavior (store : List Pokemon) (r : ListRequest)
    (g : String) (b : Bool)
    (h1 : getFilter r.filters "generation" = some g) (h2 : parseIntJS g = none) :
    (buildWhereClause r.filters).generationEq = some none
    ∧ (listEndpoint store r b).status ≠ 400
    ∧ (listEndpoint store r b).rows = [] := by
  have hg : (buildWhereClause r.filters).generationEq = some none := by
    unfold buildWhereClause
    simp [h1, h2]
  refine ⟨hg, ?_, ?_⟩
  · cases b <;> simp [listEndpoint]
  · cases b with
    | true => simp [listEndpoint]
    | false =>
      simp only [listEndpoint, Bool.false_eq_true, if_false]
      unfold listRows
      exact applyQuery_nil store _
        (fun p => matchesWhere_gen_nan _ p (by rw [paginate_whereC]; exact hg))

/-- Witness for `generation_non_numeric_behavior` on a one-entity store and
the request `generation=abc`. -/
theorem generation_non_numeric_behavior_witness :
    getFilter genReqAbc.filters "generation" = some "abc"
    ∧ parseIntJS "abc" = none
    ∧ ((buildWhereClause genReqAbc.filters).generationEq = some none
      ∧ (listEndpoint [pikachu] genReqAbc false).status ≠ 400
      ∧ (listEndpoint [pikachu] genReqAbc false).rows = []) :=
  ⟨by decide, by decide,
    generation_non_numeric_behavior [pikachu] genReqAbc "abc" false (by decide) (by decide)⟩

/-- Claim C6.  When a non-empty `q` is supplied to the search route, the
effective predicate is the conjunction of the translated filters with the
disjunction of case-insensitive containment of `q` in name, species or
description; in particular a store holding the created "Pikachu" answers the
search `q=pika` with Pikachu among the results. -/
theorem search_predicate_conjunction (q : String) (filters : List (String × String))
    (p : Pokemon) (h : q ≠ "") :
    matchesWhere (searchWhere (some q) filters) p
      = (matchesWhere (buildWhereClause filters) p
          && (containsCI q p.name || containsCI q p.species || containsCI q p.description))
    ∧ pikachu ∈ searchHandler [pikachu] (some "pika") [] := by
  refine ⟨?_, by decide⟩
  have hs : searchWhere (some q) filters
      = { buildWhereClause filters with textOr := some q } := by
    simp [searchWhere, truthy, h]
  rw [hs]
  exact matchesWhere_set_textOr (buildWhereClause filters) q p rfl

/-- Witness for `search_predicate_conjunction` at `q = "pika"` on the created
Pikachu. -/
theorem search_predicate_conjunction_witness :
    ("pika" : String) ≠ ""
    ∧ (matchesWhere (searchWhere (some "pika") []) pikachu
        = (matchesWhere (buildWhereClause []) pikachu
            && (containsCI "pika" pikachu.name || containsCI "pika" pikachu.species
                || containsCI "pika" pikachu.description))
      ∧ pikachu ∈ searchHandler [pikachu] (some "pika") []) :=
  ⟨by decide, search_predicate_conjunction "pika" [] pikachu (by decide)⟩

/-- Claim C7.  The query translator ignores unrecognized filter keys (an
entry with any other key can be dropped without changing the built where
object), and the recognized filters conjoin: the `type=Electric` filter
matches exactly the entities whose type-set contains "Electric", the
`generation=1` filter exactly the generation-1 entities, and both together
exactly the conjunction of the two. -/
theorem filters_ignore_unrecognized_and_conjoin (k v : String)
    (filters : List (String × String)) (p : Pokemon)
    (h : k ∉ recognizedFilterKeys) :
    buildWhereClause ((k, v) :: filters) = buildWhereClause filters
    ∧ matchesWhere (buildWhereClause [("type", "Electric")]) p
        = p.types.contains "Electric"
    ∧ matchesWhere (buildWhereClause [("generation", "1")]) p
        = (p.generation == 1)
    ∧ matchesWhere (buildWhereClause [("type", "Electric"), ("generation", "1")]) p
        = (p.types.contains "Electric" && p.generation == 1) := by
  refine ⟨buildWhereClause_cons k v filters h, ?_, ?_, ?_⟩
  · have hb : buildWhereClause [("type", "Electric")]
        = { typeContains := some "Electric" } := by decide
    rw [hb]
    unfold matchesWhere condName condType condGeneration condMin condMax condText
    simp
  · have hb : buildWhereClause [("generation", "1")]
        = { generationEq := some (some 1) } := by decide
    rw [hb]
    unfold matchesWhere condName condType condGeneration condMin condMax condText
    simp
  · have hb : buildWhereClause [("type", "Electric"), ("generation", "1")]
        = { typeContains := some "Electric", generationEq := some (some 1) } := by decide
    rw [hb]
    unfold matchesWhere condName condType condGeneration condMin condMax condText
    simp

/-- Witness for `filters_ignore_unrecognized_and_conjoin` with the
unrecognized key `sprite` and the entity Pikachu. -/
theorem filters_ignore_unrecognized_and_conjoin_witness :
    ("sprite" : String) ∉ recognizedFilterKeys
    ∧ (buildWhereClause [("sprite", "x")] = buildWhereClause []
      ∧ matchesWhere (buildWhereClause [("type", "Electric")]) pikachu
          = pikachu.types.contains "Electric"
      ∧ matchesWhere (buildWhereClause [("generation", "1")]) pikachu
          = (pikachu.generation == 1)
      ∧ matchesWhere (buildWhereClause [("type", "Electric"), ("generation", "1")]) pikachu
          = (pikachu.types.contains "Electric" && pikachu.generation == 1)) :=
  ⟨by decide, filters_ignore_unrecognized_and_conjoin "sprite" "x" [] pikachu (by decide)⟩

/-- Claim C8.  A GET by an id absent from the store yields 404 with
`success:false` and the structured message naming the missing id; and after a
DELETE of any id, a GET of that id — and a second DELETE — yield 404. -/
theorem not_found_404_and_delete_then_get (store : List Pokemon) (id : Int) :
    (findByPk store id = none →
      (getById store id).status = 404
      ∧ (getById store id).success = false
      ∧ (getById store id).message = some ("No Pokémon found with ID " ++ toString id))
    ∧ (getById (deleteById store id).2 id).status = 404
    ∧ (getById (deleteById store id).2 id).success = false
    ∧ (deleteById (deleteById store id).2 id).1.status = 404 := by
  have hsnd := findByPk_after_delete store id
  refine ⟨?_, ?_, ?_, ?_⟩
  · intro h
    simp [getById, h]
  · simp [getById, hsnd]
  · simp [getById, hsnd]
  · have h4 : ∀ s : List Pokemon, findByPk s id = none → (deleteById s id).1.status = 404 := by
      intro s hs
      simp [deleteById, hs]
    exact h4 _ hsnd

/-- Witness for `not_found_404_and_delete_then_get` on the one-entity store
holding Pikachu (id 25): deleting id 25 makes the following GET and DELETE
answer 404. -/
theorem not_found_404_and_delete_then_get_witness :
    (findByPk [pikachu] 25 = none →
      (getById [pikachu] 25).status = 404
      ∧ (getById [pikachu] 25).success = false
      ∧ (getById [pikachu] 25).message = some ("No Pokémon found with ID " ++ toString (25 : Int)))
    ∧ (getById (deleteById [pikachu] 25).2 25).status = 404
    ∧ (getById (deleteById [pikachu] 25).2 25).success = false
    ∧ (deleteById (deleteById [pikachu] 25).2 25).1.status = 404 :=
  not_found_404_and_delete_then_get [pikachu] 25

/-- Claim C9.  The search route passes `page` and `limit` to the translator
as ordinary filter entries, where they are unrecognized and ignored; the
result is the unpaginated list of every matching entity — membership is
exactly matching the predicate, and a store of 150 entities matching an empty
filter set yields all 150 results, beyond the list route's 100-item cap. -/
theorem search_ignores_page_limit (store : List Pokemon) (q : Option String)
    (filters : List (String × String)) (pv lv : String) (p : Pokemon) :
    searchWhere q (("page", pv) :: ("limit", lv) :: filters) = searchWhere q filters
    ∧ (p ∈ searchHandler store q filters
        ↔ p ∈ store ∧ matchesWhere (searchWhere q filters) p = true)
    ∧ (searchHandler store150 none []).length = 150
    ∧ 100 < (searchHandler store150 none []).length := by
  refine ⟨?_, ?_, by decide, by decide⟩
  · have e1 : buildWhereClause (("page", pv) :: ("limit", lv) :: filters)
        = buildWhereClause filters := by
      rw [buildWhereClause_cons "page" pv (("limit", lv) :: filters) (by decide),
          buildWhereClause_cons "limit" lv filters (by decide)]
    unfold searchWhere
    rw [e1]
  · simp [searchHandler, List.mem_filter]
